import Mathlib

/-!
Shallow embedding of the `BroadcastChannelSource` class of this repository
(the variant in `src/unnamed/part_001`, lines 1-355, which is the final
iteration with `success`/`error` reply messages).

The class turns a shared broadcast channel into a request/response protocol:
outbound operations (`_push`, `_update`, `_pull`, `_query`, `_sync`) post
tagged messages and, where a reply is expected, register a resolver in the
`_requests` record keyed by the transform/query id; `handleMessage` dispatches
inbound messages, enqueuing proxy descriptors for forwarded requests and
routing `success`/`error` replies through `resolveRequest`/`rejectRequest`;
the `__proxyUpdate__`/`__proxyPush__` methods drive an inbound write through
the listener chains (`fulfillInSeries` / `settleInSeries`) and post a reply.

Modelling conventions:
- Promise continuations are opaque tokens (`Nat`); invoking one is recorded
  as an `Event.resolved`/`Event.rejected` effect rather than executed.
- Every operation is a pure function from state to (state, list of emitted
  effects, return value); the effect list records posted messages, listener
  chain invocations, request-queue enqueues and local applications, in the
  order the source performs them.
- `fulfillInSeries` (first-fulfillment-wins, from `@orbit/core`) may reject,
  which the source's `try`/`catch` observes; its behaviour is a parameter
  (`ListenerEnv`).  `settleInSeries` settles every listener and never
  rejects, so it is recorded purely as an effect.
- JavaScript `Record<string, Resolver>` is an association list with at most
  one binding per key; property assignment overwrites, `delete` removes, and
  reading a missing property yields `undefined`, so destructuring it (as
  `resolveRequest`/`rejectRequest` do) throws a `TypeError`, modelled as
  `Except.error`.
-/

namespace BroadcastChannelSource

/-- A transform: a uniquely identified batch of mutation operations.  The
operations themselves are opaque to the channel source. -/
structure Transform where
  id : String
  operations : List String
  deriving DecidableEq, Repr

/-- A query: a uniquely identified read request with an opaque expression. -/
structure Query where
  id : String
  expression : String
  deriving DecidableEq, Repr

/-- Result payloads (`QueryResultData`) are opaque to the channel source. -/
abbrev QueryResultData := String

/-- An error value carried by an `error` message or thrown by a listener. -/
structure Err where
  message : String
  deriving DecidableEq, Repr

/-- A JavaScript `TypeError`, raised e.g. by destructuring `undefined`. -/
structure TypeError where
  message : String
  deriving DecidableEq, Repr

/-- The `Message` tagged union exchanged on the broadcast channel
(source lines 26-63). -/
inductive Message where
  | sync (transform : Transform)
  | query (q : Query)
  | pull (q : Query)
  | update (transform : Transform)
  | push (transform : Transform)
  | success (id : String) (result : Option QueryResultData)
  | error (id : String) (error : Err)
  deriving DecidableEq, Repr

/-- The argument passed to a `settleInSeries` listener chain besides the
transform/query itself: a result (`proxyUpdate`), an empty array
(`proxyPush`), or the caught failure (`updateFail`/`pushFail`). -/
inductive SettleArg where
  | withResult (result : Option QueryResultData)
  | withEmpty
  | withFailure (e : Err)
  deriving DecidableEq, Repr

/-- Observable effects of one operation, in program order. -/
inductive Event where
  /-- `this.channel.postMessage(m)` -/
  | posted (m : Message)
  /-- `fulfillInSeries(this, event, payload, hints)` was invoked for the
  transform/query with the given id -/
  | fulfilled (event : String) (id : String)
  /-- `settleInSeries(this, event, payload, arg)` ran to completion -/
  | settled (event : String) (id : String) (arg : SettleArg)
  /-- `this.transformed([t])`: the transform was applied to the local store
  and its id appended to the transform log -/
  | transformedApplied (t : Transform)
  /-- a pending continuation was resolved with the given result -/
  | resolved (tok : Nat) (result : Option QueryResultData)
  /-- a pending continuation was rejected with the given error -/
  | rejected (tok : Nat) (e : Err)
  /-- `this._requestQueue.push({ type, data })` -/
  | enqueuedTask (kind : String) (id : String)
  /-- `this.sync(transform)` was invoked from the message callback -/
  | syncInvoked (t : Transform)
  deriving DecidableEq, Repr

/-- Return value of a proxy method: the literal `[]` of the replay and push
branches, the `result` of a successful update proxy, or `undefined` when the
`catch` branch falls through without a `return`. -/
inductive Value where
  | emptyList
  | payload (result : Option QueryResultData)
  | undef
  deriving DecidableEq, Repr

/-- Look up the resolver token bound to a request id in `_requests`
(JavaScript property read: `this._requests[requestId]`, `undefined` when
absent). -/
def lookupReq : List (String × Nat) → String → Option Nat
  | [], _ => none
  | (k, v) :: rest, id => if k = id then some v else lookupReq rest id

/-- `delete this._requests[requestId]`: remove the binding for a key. -/
def eraseReq : List (String × Nat) → String → List (String × Nat)
  | [], _ => []
  | (k, v) :: rest, id =>
      if k = id then eraseReq rest id else (k, v) :: eraseReq rest id

/-- `this._requests[id] = resolver`: property assignment binds `id` to the
resolver, overwriting any previous binding for the same key. -/
def insertReq (rs : List (String × Nat)) (id : String) (tok : Nat) :
    List (String × Nat) :=
  (id, tok) :: eraseReq rs id

/-- A JavaScript `Record` holds at most one binding per key. -/
def WellFormed (rs : List (String × Nat)) : Prop :=
  (rs.map Prod.fst).Nodup

/-- The mutable state of one `BroadcastChannelSource` instance that the
claims depend on: the transform log consulted via `contains(id)` and the
`_requests` correlation record. -/
structure SourceState where
  transformLog : List String
  requests : List (String × Nat)
  deriving DecidableEq, Repr

/-- Behaviour of the externally registered listener chains driven by
`fulfillInSeries` for inbound write proxies: on success the `hints` object
may have been populated with `hints.data`; a listener may also reject, which
the proxy's `catch` observes.  (`settleInSeries` chains never reject.) -/
structure ListenerEnv where
  beforeUpdate : Transform → Except Err (Option QueryResultData)
  beforePush : Transform → Except Err Unit

/-- `_push` (source lines 121-133): if the transform log does not contain the
id, post a `push` message and register a resolver under the transform's id,
suspending on the new promise (`some tok`); otherwise return at once
(`none`). -/
def _push (st : SourceState) (t : Transform) (tok : Nat) :
    SourceState × List Event × Option Nat :=
  if st.transformLog.contains t.id then
    (st, [], none)
  else
    ({ st with requests := insertReq st.requests t.id tok },
     [Event.posted (Message.push t)], some tok)

/-- The code `_push` runs after its awaited promise settles successfully:
`return [];` — the resolution value of the promise is discarded. -/
def pushReturn : Option QueryResultData → List Transform :=
  fun _ => []

/-- `_update` (source lines 138-150): same registration pattern as `_push`
but posting an `update` message; when the id is already in the log it
returns `undefined` without posting. -/
def _update (st : SourceState) (t : Transform) (tok : Nat) :
    SourceState × List Event × Option Nat :=
  if st.transformLog.contains t.id then
    (st, [], none)
  else
    ({ st with requests := insertReq st.requests t.id tok },
     [Event.posted (Message.update t)], some tok)

/-- `_update` returns the registered promise itself, so it settles with the
exact value the resolver was called with. -/
def updateReturn : Option QueryResultData → Option QueryResultData :=
  fun r => r

/-- `_pull` (source lines 155-165): always posts a `pull` message and
registers a resolver under the query's id, never consulting the transform
log. -/
def _pull (st : SourceState) (q : Query) (tok : Nat) :
    SourceState × List Event × Nat :=
  ({ st with requests := insertReq st.requests q.id tok },
   [Event.posted (Message.pull q)], tok)

/-- The code `_pull` runs after its awaited promise resolves: `return [];`
— the result carried by the reply is discarded. -/
def pullReturn : Option QueryResultData → List Transform :=
  fun _ => []

/-- `_query` (source lines 171-180): posts a `query` message, registers a
resolver, and returns the registered promise itself. -/
def _query (st : SourceState) (q : Query) (tok : Nat) :
    SourceState × List Event × Nat :=
  ({ st with requests := insertReq st.requests q.id tok },
   [Event.posted (Message.query q)], tok)

/-- `this.transformed([t])` (behaviour of the `Source` base class): apply
the transform locally and append its id to the transform log. -/
def transformed (st : SourceState) (t : Transform) : SourceState × List Event :=
  ({ st with transformLog := st.transformLog ++ [t.id] },
   [Event.transformedApplied t])

/-- `_sync` (source lines 186-194): if the transform log does not contain
the id, post a `sync` message and then apply the transform locally;
otherwise do nothing at all. -/
def _sync (st : SourceState) (t : Transform) : SourceState × List Event :=
  if st.transformLog.contains t.id then
    (st, [])
  else
    let (st1, evs) := transformed st t
    (st1, Event.posted (Message.sync t) :: evs)

/-- `__proxyUpdate__` (source lines 247-275): early-return `[]` when the
transform log already contains the id; otherwise run the `beforeUpdate`
fulfill chain against a fresh hints object, read `hints.data`, settle the
`proxyUpdate` chain and post `success` with the result; on any failure
settle the `updateFail` chain and post `error`. -/
def __proxyUpdate__ (env : ListenerEnv) (st : SourceState) (t : Transform) :
    SourceState × List Event × Value :=
  if st.transformLog.contains t.id then
    (st, [], Value.emptyList)
  else
    match env.beforeUpdate t with
    | Except.ok result =>
        (st,
         [Event.fulfilled "beforeUpdate" t.id,
          Event.settled "proxyUpdate" t.id (SettleArg.withResult result),
          Event.posted (Message.success t.id result)],
         Value.payload result)
    | Except.error e =>
        (st,
         [Event.fulfilled "beforeUpdate" t.id,
          Event.settled "updateFail" t.id (SettleArg.withFailure e),
          Event.posted (Message.error t.id e)],
         Value.undef)

/-- `__proxyPush__` (source lines 277-302): like `__proxyUpdate__` but the
hints data is never read; the `success` reply carries no result and the
method returns `[]`. -/
def __proxyPush__ (env : ListenerEnv) (st : SourceState) (t : Transform) :
    SourceState × List Event × Value :=
  if st.transformLog.contains t.id then
    (st, [], Value.emptyList)
  else
    match env.beforePush t with
    | Except.ok _ =>
        (st,
         [Event.fulfilled "beforePush" t.id,
          Event.settled "proxyPush" t.id SettleArg.withEmpty,
          Event.posted (Message.success t.id none)],
         Value.emptyList)
    | Except.error e =>
        (st,
         [Event.fulfilled "beforePush" t.id,
          Event.settled "pushFail" t.id (SettleArg.withFailure e),
          Event.posted (Message.error t.id e)],
         Value.undef)

/-- The `TypeError` raised by `const \x7b resolve \x7d = this._requests[requestId]`
when the property read yields `undefined`. -/
def destructureErr : TypeError :=
  { message := "Cannot destructure property of undefined" }

/-- `resolveRequest` (source lines 344-348): destructure the resolver for
the id (throws a `TypeError` when no entry exists), delete the entry, then
invoke `resolve(result)`.  The continuation is invoked only after the entry
has been removed, against the table returned here. -/
def resolveRequest (requests : List (String × Nat)) (requestId : String)
    (result : Option QueryResultData) :
    Except TypeError (List (String × Nat) × Event) :=
  match lookupReq requests requestId with
  | none => Except.error destructureErr
  | some tok =>
      Except.ok (eraseReq requests requestId, Event.resolved tok result)

/-- `rejectRequest` (source lines 350-354): destructure the resolver for the
id (throws a `TypeError` when no entry exists), delete the entry, then
invoke `reject(error)`. -/
def rejectRequest (requests : List (String × Nat)) (requestId : String)
    (e : Err) : Except TypeError (List (String × Nat) × Event) :=
  match lookupReq requests requestId with
  | none => Except.error destructureErr
  | some tok =>
      Except.ok (eraseReq requests requestId, Event.rejected tok e)

/-- `handleMessage` (source lines 319-342): `sync` invokes `this.sync`;
`query`/`pull`/`update`/`push` enqueue a proxy descriptor on the serialized
request queue; `success`/`error` are routed through
`resolveRequest`/`rejectRequest`, whose `TypeError` (if any) propagates out
of the message callback. -/
def handleMessage (st : SourceState) (m : Message) :
    Except TypeError (SourceState × List Event) :=
  match m with
  | Message.sync t => Except.ok (st, [Event.syncInvoked t])
  | Message.query q => Except.ok (st, [Event.enqueuedTask "proxyQuery" q.id])
  | Message.pull q => Except.ok (st, [Event.enqueuedTask "proxyPull" q.id])
  | Message.update t =>
      Except.ok (st, [Event.enqueuedTask "proxyUpdate" t.id])
  | Message.push t => Except.ok (st, [Event.enqueuedTask "proxyPush" t.id])
  | Message.success id result =>
      match resolveRequest st.requests id result with
      | Except.ok (reqs, ev) =>
          Except.ok ({ st with requests := reqs }, [ev])
      | Except.error te => Except.error te
  | Message.error id e =>
      match rejectRequest st.requests id e with
      | Except.ok (reqs, ev) =>
          Except.ok ({ st with requests := reqs }, [ev])
      | Except.error te => Except.error te

/-- The broadcast channel object created by `_activate`; `close()` on the
`broadcast-channel` library is idempotent (it marks the channel closed and
returns normally even when already closed). -/
structure Channel where
  closed : Bool
  deriving DecidableEq, Repr

/-- `channel.close()` of the `broadcast-channel` library: marks the channel
closed; calling it again is a no-op that does not throw. -/
def Channel.close (ch : Channel) : Channel :=
  { ch with closed := true }

/-- The `TypeError` raised by `this.channel.close()` when `this.channel` was
never assigned (i.e. `_activate` never ran) and is still `undefined`. -/
def closeUndefinedErr : TypeError :=
  { message := "Cannot read properties of undefined" }

/-- `deactivate` (source lines 314-317): `await this.channel.close()` —
throws a `TypeError` when the source was never activated (`this.channel` is
`undefined`); otherwise closes the channel and defers to the base class. -/
def deactivate (channel : Option Channel) : Except TypeError (Option Channel) :=
  match channel with
  | none => Except.error closeUndefinedErr
  | some ch => Except.ok (some (Channel.close ch))

/-! ### Concrete fixtures used for counterexamples and witnesses -/

/-- A listener environment with no registered listeners: the fulfill chains
resolve without populating `hints`. -/
def env0 : ListenerEnv :=
  { beforeUpdate := fun _ => Except.ok none
    beforePush := fun _ => Except.ok () }

/-- A listener environment whose before-chains reject with a validation
error. -/
def envFail : ListenerEnv :=
  { beforeUpdate := fun _ => Except.error { message := "ValidationFailed" }
    beforePush := fun _ => Except.error { message := "ValidationFailed" } }

/-- A listener environment whose before-chains supply a cached result. -/
def envHint : ListenerEnv :=
  { beforeUpdate := fun _ => Except.ok (some "cached")
    beforePush := fun _ => Except.ok () }

def t1 : Transform := { id := "t1", operations := ["addRecord"] }

def q1 : Query := { id := "q1", expression := "findRecords" }

/-- Fresh state: empty transform log, no pending requests. -/
def st0 : SourceState := { transformLog := [], requests := [] }

/-- State whose transform log already contains `"t1"`. -/
def st1 : SourceState := { transformLog := ["t1"], requests := [] }

/-- State with two pending correlation entries. -/
def stP : SourceState :=
  { transformLog := [], requests := [("x", 5), ("y", 6)] }

/-! ### Lemmas about the `_requests` record -/

theorem lookupReq_eraseReq_self (rs : List (String × Nat)) (id : String) :
    lookupReq (eraseReq rs id) id = none := by
  induction rs with
  | nil => rfl
  | cons p rest ih =>
      obtain ⟨k, v⟩ := p
      by_cases h : k = id
      · simp [eraseReq, h, ih]
      · simp [eraseReq, lookupReq, h, ih]

theorem lookupReq_eraseReq_ne (rs : List (String × Nat)) (id id' : String)
    (h : id' ≠ id) : lookupReq (eraseReq rs id) id' = lookupReq rs id' := by
  induction rs with
  | nil => rfl
  | cons p rest ih =>
      obtain ⟨k, v⟩ := p
      by_cases hk : k = id
      · subst hk
        simp [eraseReq, lookupReq, Ne.symm h, ih]
      · by_cases hk' : k = id'
        · simp [eraseReq, lookupReq, hk, hk', h]
        · simp [eraseReq, lookupReq, hk, hk', ih]

theorem lookupReq_insertReq_self (rs : List (String × Nat)) (id : String)
    (tok : Nat) : lookupReq (insertReq rs id tok) id = some tok := by
  simp [insertReq, lookupReq]

theorem lookupReq_insertReq_ne (rs : List (String × Nat)) (id id' : String)
    (tok : Nat) (h : id' ≠ id) :
    lookupReq (insertReq rs id tok) id' = lookupReq rs id' := by
  simp [insertReq, lookupReq, Ne.symm h, lookupReq_eraseReq_ne rs id id' h]

theorem eraseReq_eraseReq (rs : List (String × Nat)) (id : String) :
    eraseReq (eraseReq rs id) id = eraseReq rs id := by
  induction rs with
  | nil => rfl
  | cons p rest ih =>
      obtain ⟨k, v⟩ := p
      by_cases h : k = id
      · simp [eraseReq, h, ih]
      · simp [eraseReq, h, ih]

theorem eraseReq_insertReq (rs : List (String × Nat)) (id : String)
    (tok : Nat) : eraseReq (insertReq rs id tok) id = eraseReq rs id := by
  simp [insertReq, eraseReq, eraseReq_eraseReq]

theorem not_mem_keys_eraseReq (rs : List (String × Nat)) (id : String) :
    id ∉ (eraseReq rs id).map Prod.fst := by
  induction rs with
  | nil => simp [eraseReq]
  | cons p rest ih =>
      obtain ⟨k, v⟩ := p
      by_cases h : k = id
      · simpa [eraseReq, h] using ih
      · simp [eraseReq, h, ih, Ne.symm h]

theorem eraseReq_sublist (rs : List (String × Nat)) (id : String) :
    (eraseReq rs id).Sublist rs := by
  induction rs with
  | nil => simp [eraseReq]
  | cons p rest ih =>
      obtain ⟨k, v⟩ := p
      by_cases h : k = id
      · simp only [eraseReq, h, if_true]
        exact ih.cons _
      · simp only [eraseReq, h, if_false]
        exact ih.cons₂ _

theorem wellFormed_eraseReq (rs : List (String × Nat)) (id : String)
    (h : WellFormed rs) : WellFormed (eraseReq rs id) :=
  List.Nodup.sublist ((eraseReq_sublist rs id).map Prod.fst) h

theorem wellFormed_insertReq (rs : List (String × Nat)) (id : String)
    (tok : Nat) (h : WellFormed rs) : WellFormed (insertReq rs id tok) := by
  rw [WellFormed, insertReq, List.map_cons, List.nodup_cons]
  exact ⟨not_mem_keys_eraseReq rs id, wellFormed_eraseReq rs id h⟩

/-! ### Routing lemmas -/

theorem handleMessage_success_found (st : SourceState) (id : String)
    (tok : Nat) (res : Option QueryResultData)
    (h : lookupReq st.requests id = some tok) :
    handleMessage st (Message.success id res) =
      Except.ok ({ st with requests := eraseReq st.requests id },
        [Event.resolved tok res]) := by
  simp [handleMessage, resolveRequest, h]

theorem handleMessage_error_found (st : SourceState) (id : String)
    (tok : Nat) (e : Err) (h : lookupReq st.requests id = some tok) :
    handleMessage st (Message.error id e) =
      Except.ok ({ st with requests := eraseReq st.requests id },
        [Event.rejected tok e]) := by
  simp [handleMessage, rejectRequest, h]

/-! ### Claims -/

/-- Claim C1, counterexample: with transform log `["t1"]`, an inbound
`update` proxy for the transform with id `"t1"` posts no `success` message
(indeed, no message at all) on the channel — its effect list is empty — so
the proxy does not "reply immediately on the channel with a `success`
message carrying that id and an empty result" as claimed. -/
theorem proxyUpdate_replay_posts_nothing :
    Event.posted (Message.success "t1" none) ∉
      (__proxyUpdate__ env0 st1 t1).2.1 ∧
    (__proxyUpdate__ env0 st1 t1).2.1 = [] := by
  constructor
  · simp [__proxyUpdate__, env0, st1, t1]
  · simp [__proxyUpdate__, env0, st1, t1]

/-- Claim C1 (amended): for every inbound write-kind proxy request (push or
update) whose transform id is already contained in the transform log, the
proxy returns immediately with an empty result and runs no listener chain,
but it posts nothing on the channel — in particular no `success` reply —
and leaves the state untouched. -/
theorem proxy_replay_returns_empty_without_reply (env : ListenerEnv)
    (st : SourceState) (t : Transform)
    (h : st.transformLog.contains t.id = true) :
    __proxyUpdate__ env st t = (st, [], Value.emptyList) ∧
    __proxyPush__ env st t = (st, [], Value.emptyList) := by
  constructor
  · simp only [__proxyUpdate__, h, if_true]
  · simp only [__proxyPush__, h, if_true]

/-- Witness for C1's amended theorem at a concrete replayed transform. -/
theorem proxy_replay_returns_empty_without_reply_witness :
    __proxyUpdate__ env0 st1 t1 = (st1, [], Value.emptyList) ∧
    __proxyPush__ env0 st1 t1 = (st1, [], Value.emptyList) :=
  proxy_replay_returns_empty_without_reply env0 st1 t1 (by decide)

/-- Claim C2, counterexample: with no pending correlation entry at all,
routing a `success` message raises a `TypeError` (from destructuring the
`undefined` property read) instead of dropping the message. -/
theorem resolve_missing_entry_raises :
    handleMessage st0 (Message.success "x" none) =
      Except.error destructureErr ∧
    handleMessage st0 (Message.error "x" { message := "boom" }) =
      Except.error destructureErr := by
  constructor <;> rfl

/-- Claim C2 (amended): for every received `success` or `error` message
whose id has no live correlation entry, the reply router raises a
`TypeError` — `const \x7b resolve \x7d = this._requests[requestId]`
destructures `undefined` — and the throw happens before the `delete`
statement, so no entry is deleted and no other pending entry's continuation
or table entry is altered (the router never reaches a state mutation). -/
theorem reply_missing_entry_raises_without_altering (st : SourceState)
    (id : String) (res : Option QueryResultData) (e : Err)
    (h : lookupReq st.requests id = none) :
    resolveRequest st.requests id res = Except.error destructureErr ∧
    rejectRequest st.requests id e = Except.error destructureErr ∧
    handleMessage st (Message.success id res) = Except.error destructureErr ∧
    handleMessage st (Message.error id e) = Except.error destructureErr := by
  refine ⟨?_, ?_, ?_, ?_⟩ <;>
    simp [resolveRequest, rejectRequest, handleMessage, h]

/-- Witness for C2's amended theorem: two entries are pending, a reply for
an unknown id raises. -/
theorem reply_missing_entry_raises_without_altering_witness :
    resolveRequest stP.requests "z" (some "r") =
      Except.error destructureErr ∧
    rejectRequest stP.requests "z" { message := "boom" } =
      Except.error destructureErr ∧
    handleMessage stP (Message.success "z" (some "r")) =
      Except.error destructureErr ∧
    handleMessage stP (Message.error "z" { message := "boom" }) =
      Except.error destructureErr :=
  reply_missing_entry_raises_without_altering stP "z" (some "r")
    { message := "boom" } (by decide)

/-- Claim C3, counterexample: when `activate()` was never called,
`this.channel` is still `undefined`, so `deactivate()` raises a `TypeError`
instead of returning without throwing. -/
theorem deactivate_unactivated_throws :
    deactivate none = Except.error closeUndefinedErr := rfl

/-- Claim C3 (amended): `deactivate()` throws a `TypeError` when
`activate()` was never called (the channel field is `undefined`); once a
channel exists, `deactivate()` returns without throwing regardless of
whether the channel is already closed, since the library's `close()` is
idempotent. -/
theorem deactivate_amended_behavior :
    deactivate none = Except.error closeUndefinedErr ∧
    (∀ b : Bool,
      deactivate (some { closed := b }) =
        Except.ok (some { closed := true })) :=
  ⟨rfl, fun _ => rfl⟩

/-- Claim C4: for every transform whose id is already in the transform log,
`_sync` is a no-op — no message is posted and the state (in particular the
local store and the log) is untouched; for a transform not yet in the log it
posts a `sync` message and then applies the transform locally, appending its
id to the log. -/
theorem sync_idempotent_and_broadcast (st : SourceState) (t : Transform) :
    (st.transformLog.contains t.id = true → _sync st t = (st, [])) ∧
    (st.transformLog.contains t.id = false →
      _sync st t =
        ({ st with transformLog := st.transformLog ++ [t.id] },
         [Event.posted (Message.sync t), Event.transformedApplied t])) := by
  constructor
  · intro h
    simp only [_sync, h, if_true]
  · intro h
    simp only [_sync, transformed, h, if_false, Bool.false_eq_true]

/-- Witness for C4 at a replayed transform and at a fresh transform. -/
theorem sync_idempotent_and_broadcast_witness :
    _sync st1 t1 = (st1, []) ∧
    _sync st0 t1 =
      ({ st0 with transformLog := st0.transformLog ++ [t1.id] },
       [Event.posted (Message.sync t1), Event.transformedApplied t1]) :=
  ⟨(sync_idempotent_and_broadcast st1 t1).1 (by decide),
   (sync_idempotent_and_broadcast st0 t1).2 (by decide)⟩

/-- Claim C5: `_push`/`_update` return immediately (no message, no
registration, no suspension) when the transform's id is in the transform
log, resolving with an empty result; otherwise they post a `push`/`update`
message, register a correlation entry under the transform's id and suspend
on it; routing a `success` reply for that id resolves exactly that
continuation with the reply's result (after which `_push` returns the empty
list and `_update` returns the result), and routing an `error` reply rejects
it with the carried error. -/
theorem forwardWrite_roundtrip (st : SourceState) (t : Transform) (tok : Nat)
    (res : Option QueryResultData) (e : Err) :
    (st.transformLog.contains t.id = true →
      _push st t tok = (st, [], none) ∧ _update st t tok = (st, [], none)) ∧
    (st.transformLog.contains t.id = false →
      _push st t tok =
        ({ st with requests := insertReq st.requests t.id tok },
         [Event.posted (Message.push t)], some tok) ∧
      _update st t tok =
        ({ st with requests := insertReq st.requests t.id tok },
         [Event.posted (Message.update t)], some tok) ∧
      handleMessage { st with requests := insertReq st.requests t.id tok }
          (Message.success t.id res) =
        Except.ok ({ st with requests := eraseReq st.requests t.id },
          [Event.resolved tok res]) ∧
      handleMessage { st with requests := insertReq st.requests t.id tok }
          (Message.error t.id e) =
        Except.ok ({ st with requests := eraseReq st.requests t.id },
          [Event.rejected tok e]) ∧
      pushReturn res = [] ∧ updateReturn res = res) := by
  constructor
  · intro h
    constructor
    · simp only [_push, h, if_true]
    · simp only [_update, h, if_true]
  · intro h
    refine ⟨?_, ?_, ?_, ?_, rfl, rfl⟩
    · simp only [_push, h, if_false, Bool.false_eq_true]
    · simp only [_update, h, if_false, Bool.false_eq_true]
    · rw [handleMessage_success_found _ t.id tok res
        (lookupReq_insertReq_self st.requests t.id tok)]
      simp [eraseReq_insertReq]
    · rw [handleMessage_error_found _ t.id tok e
        (lookupReq_insertReq_self st.requests t.id tok)]
      simp [eraseReq_insertReq]

/-- Witness for C5: a replayed push returns at once; a fresh update posts,
registers, and its reply resolves the registered continuation. -/
theorem forwardWrite_roundtrip_witness :
    _push st1 t1 7 = (st1, [], none) ∧
    _update st0 t1 7 =
      ({ st0 with requests := insertReq st0.requests t1.id 7 },
       [Event.posted (Message.update t1)], some 7) ∧
    handleMessage { st0 with requests := insertReq st0.requests t1.id 7 }
        (Message.success t1.id (some "r")) =
      Except.ok ({ st0 with requests := eraseReq st0.requests t1.id },
        [Event.resolved 7 (some "r")]) :=
  ⟨((forwardWrite_roundtrip st1 t1 7 (some "r") { message := "boom" }).1
      (by decide)).1,
   (((forwardWrite_roundtrip st0 t1 7 (some "r") { message := "boom" }).2
      (by decide)).2).1,
   ((((forwardWrite_roundtrip st0 t1 7 (some "r") { message := "boom" }).2
      (by decide)).2).2).1⟩

/-- Claim C6, counterexample: the value `_pull` resolves with after its
awaited promise settles is the constant empty list — identical for two
different carried reply results — so `forwardRead` does not resolve "with
whatever result the reply carries"; the carried result is discarded. -/
theorem pull_discards_reply_result :
    pullReturn (some "a") = ([] : List Transform) ∧
    pullReturn (some "b") = ([] : List Transform) ∧
    (some "a" : Option QueryResultData) ≠ some "b" :=
  ⟨rfl, rfl, by decide⟩

/-- Claim C6 (amended): for every query, `_pull` unconditionally posts a
`pull` message without consulting the transform log, registers a correlation
entry under the query's id and suspends; when the reply for that id arrives
its continuation is resolved with the carried result (or rejected with the
carried error), but `_pull` itself then resolves with an empty transform
list, discarding whatever result the reply carried. -/
theorem forwardRead_amended (st : SourceState) (q : Query) (tok : Nat)
    (res : Option QueryResultData) (e : Err) :
    _pull st q tok =
      ({ st with requests := insertReq st.requests q.id tok },
       [Event.posted (Message.pull q)], tok) ∧
    handleMessage { st with requests := insertReq st.requests q.id tok }
        (Message.success q.id res) =
      Except.ok ({ st with requests := eraseReq st.requests q.id },
        [Event.resolved tok res]) ∧
    handleMessage { st with requests := insertReq st.requests q.id tok }
        (Message.error q.id e) =
      Except.ok ({ st with requests := eraseReq st.requests q.id },
        [Event.rejected tok e]) ∧
    pullReturn res = [] := by
  refine ⟨rfl, ?_, ?_, rfl⟩
  · rw [handleMessage_success_found _ q.id tok res
      (lookupReq_insertReq_self st.requests q.id tok)]
    simp [eraseReq_insertReq]
  · rw [handleMessage_error_found _ q.id tok e
      (lookupReq_insertReq_self st.requests q.id tok)]
    simp [eraseReq_insertReq]

/-- Claim C7: when a step of a write-kind proxy fails (here: the
before-chain rejects), the proxy settles the `updateFail`/`pushFail`
listener chain with the transform and the error, posts an `error` message
carrying the transform's id and the error, leaves the state — in particular
the transform log — untouched, and swallows the failure (the proxy function
is total and returns `undefined`); the transport's message-delivery path
itself only enqueues write proxies on the serialized request queue, so the
failure can never propagate out of `handleMessage`. -/
theorem proxy_failure_error_reply (env : ListenerEnv) (st : SourceState)
    (t : Transform) (e : Err)
    (hnew : st.transformLog.contains t.id = false)
    (hupd : env.beforeUpdate t = Except.error e)
    (hpsh : env.beforePush t = Except.error e) :
    __proxyUpdate__ env st t =
      (st,
       [Event.fulfilled "beforeUpdate" t.id,
        Event.settled "updateFail" t.id (SettleArg.withFailure e),
        Event.posted (Message.error t.id e)],
       Value.undef) ∧
    __proxyPush__ env st t =
      (st,
       [Event.fulfilled "beforePush" t.id,
        Event.settled "pushFail" t.id (SettleArg.withFailure e),
        Event.posted (Message.error t.id e)],
       Value.undef) ∧
    handleMessage st (Message.update t) =
      Except.ok (st, [Event.enqueuedTask "proxyUpdate" t.id]) ∧
    handleMessage st (Message.push t) =
      Except.ok (st, [Event.enqueuedTask "proxyPush" t.id]) := by
  refine ⟨?_, ?_, rfl, rfl⟩
  · simp only [__proxyUpdate__, hnew, if_false, Bool.false_eq_true, hupd]
  · simp only [__proxyPush__, hnew, if_false, Bool.false_eq_true, hpsh]

/-- Witness for C7: a rejecting before-chain yields an `error` reply for the
concrete transform, with the log untouched. -/
theorem proxy_failure_error_reply_witness :
    __proxyUpdate__ envFail st0 t1 =
      (st0,
       [Event.fulfilled "beforeUpdate" t1.id,
        Event.settled "updateFail" t1.id
          (SettleArg.withFailure { message := "ValidationFailed" }),
        Event.posted (Message.error t1.id { message := "ValidationFailed" })],
       Value.undef) ∧
    __proxyPush__ envFail st0 t1 =
      (st0,
       [Event.fulfilled "beforePush" t1.id,
        Event.settled "pushFail" t1.id
          (SettleArg.withFailure { message := "ValidationFailed" }),
        Event.posted (Message.error t1.id { message := "ValidationFailed" })],
       Value.undef) ∧
    handleMessage st0 (Message.update t1) =
      Except.ok (st0, [Event.enqueuedTask "proxyUpdate" t1.id]) ∧
    handleMessage st0 (Message.push t1) =
      Except.ok (st0, [Event.enqueuedTask "proxyPush" t1.id]) :=
  proxy_failure_error_reply envFail st0 t1 { message := "ValidationFailed" }
    (by decide) rfl rfl

/-- Claim C8: a correlation entry exists from the moment the outbound
request is sent (`_update` binds the transform's id) until a matching reply
is routed, at which instant `resolveRequest` deletes it — the table the
continuation observes no longer has the entry, so a second reply for the
same id cannot resolve it again (it raises on the missing entry instead);
and the record keeps at most one live entry per id, preserved by both
registration and routing. -/
theorem correlation_entry_lifecycle (st : SourceState) (t : Transform)
    (tok tok2 : Nat) (id : String) (res res2 : Option QueryResultData)
    (hnew : st.transformLog.contains t.id = false)
    (hlive : lookupReq st.requests id = some tok2)
    (hwf : WellFormed st.requests) :
    lookupReq (_update st t tok).1.requests t.id = some tok ∧
    resolveRequest st.requests id res =
      Except.ok (eraseReq st.requests id, Event.resolved tok2 res) ∧
    lookupReq (eraseReq st.requests id) id = none ∧
    resolveRequest (eraseReq st.requests id) id res2 =
      Except.error destructureErr ∧
    WellFormed (insertReq st.requests t.id tok) ∧
    WellFormed (eraseReq st.requests id) := by
  refine ⟨?_, ?_, lookupReq_eraseReq_self _ _, ?_,
    wellFormed_insertReq _ _ _ hwf, wellFormed_eraseReq _ _ hwf⟩
  · simp only [_update, hnew, if_false, Bool.false_eq_true]
    exact lookupReq_insertReq_self st.requests t.id tok
  · simp only [resolveRequest, hlive]
  · simp only [resolveRequest, lookupReq_eraseReq_self]

/-- Witness for C8 with two pending entries and a fresh transform. -/
theorem correlation_entry_lifecycle_witness :
    lookupReq (_update stP t1 7).1.requests t1.id = some 7 ∧
    resolveRequest stP.requests "x" (some "r") =
      Except.ok (eraseReq stP.requests "x", Event.resolved 5 (some "r")) ∧
    lookupReq (eraseReq stP.requests "x") "x" = none ∧
    resolveRequest (eraseReq stP.requests "x") "x" none =
      Except.error destructureErr ∧
    WellFormed (insertReq stP.requests t1.id 7) ∧
    WellFormed (eraseReq stP.requests "x") :=
  correlation_entry_lifecycle stP t1 7 5 "x" (some "r") none
    (by decide) (by decide) (by unfold WellFormed; decide)

/-- Claim C9: routing a reply tagged with id `X` resolves (on `success`) or
rejects (on `error`) exactly the continuation registered under `X` — the
emitted effect list is exactly that one continuation invocation — and
deletes only that entry: `X` is gone from the table afterwards while every
other id `Y` still maps to exactly the resolver it mapped to before, and
the transform log is untouched. -/
theorem reply_routing_frame (st : SourceState) (X : String) (tokX : Nat)
    (res : Option QueryResultData) (e : Err) (Y : String)
    (hX : lookupReq st.requests X = some tokX) (hY : Y ≠ X) :
    handleMessage st (Message.success X res) =
      Except.ok ({ st with requests := eraseReq st.requests X },
        [Event.resolved tokX res]) ∧
    handleMessage st (Message.error X e) =
      Except.ok ({ st with requests := eraseReq st.requests X },
        [Event.rejected tokX e]) ∧
    lookupReq (eraseReq st.requests X) X = none ∧
    lookupReq (eraseReq st.requests X) Y = lookupReq st.requests Y :=
  ⟨handleMessage_success_found st X tokX res hX,
   handleMessage_error_found st X tokX e hX,
   lookupReq_eraseReq_self _ _,
   lookupReq_eraseReq_ne _ _ _ hY⟩

/-- Witness for C9: with entries for `"x"` and `"y"` pending, a reply for
`"x"` resolves token 5 only and leaves `"y"`'s entry in place. -/
theorem reply_routing_frame_witness :
    handleMessage stP (Message.success "x" (some "r")) =
      Except.ok ({ stP with requests := eraseReq stP.requests "x" },
        [Event.resolved 5 (some "r")]) ∧
    handleMessage stP (Message.error "x" { message := "boom" }) =
      Except.ok ({ stP with requests := eraseReq stP.requests "x" },
        [Event.rejected 5 { message := "boom" }]) ∧
    lookupReq (eraseReq stP.requests "x") "x" = none ∧
    lookupReq (eraseReq stP.requests "x") "y" = lookupReq stP.requests "y" :=
  reply_routing_frame stP "x" 5 (some "r") { message := "boom" } "y"
    (by decide) (by decide)

/-- Claim C10: a successful write-kind proxy only runs the listener chains
and posts the `success` reply — it leaves the state (and hence the transform
log) unchanged, never emits a local-application effect, and therefore a
second inbound write carrying the same id runs the full chain again instead
of taking the idempotent-replay branch. -/
theorem proxy_success_no_local_apply (env : ListenerEnv) (st : SourceState)
    (t : Transform) (res : Option QueryResultData)
    (hnew : st.transformLog.contains t.id = false)
    (hupd : env.beforeUpdate t = Except.ok res)
    (hpsh : env.beforePush t = Except.ok ()) :
    __proxyUpdate__ env st t =
      (st,
       [Event.fulfilled "beforeUpdate" t.id,
        Event.settled "proxyUpdate" t.id (SettleArg.withResult res),
        Event.posted (Message.success t.id res)],
       Value.payload res) ∧
    __proxyPush__ env st t =
      (st,
       [Event.fulfilled "beforePush" t.id,
        Event.settled "proxyPush" t.id SettleArg.withEmpty,
        Event.posted (Message.success t.id none)],
       Value.emptyList) ∧
    Event.transformedApplied t ∉ (__proxyUpdate__ env st t).2.1 ∧
    Event.transformedApplied t ∉ (__proxyPush__ env st t).2.1 ∧
    __proxyUpdate__ env (__proxyUpdate__ env st t).1 t =
      __proxyUpdate__ env st t ∧
    __proxyPush__ env (__proxyPush__ env st t).1 t =
      __proxyPush__ env st t := by
  have h1 : __proxyUpdate__ env st t =
      (st,
       [Event.fulfilled "beforeUpdate" t.id,
        Event.settled "proxyUpdate" t.id (SettleArg.withResult res),
        Event.posted (Message.success t.id res)],
       Value.payload res) := by
    simp only [__proxyUpdate__, hnew, if_false, Bool.false_eq_true, hupd]
  have h2 : __proxyPush__ env st t =
      (st,
       [Event.fulfilled "beforePush" t.id,
        Event.settled "proxyPush" t.id SettleArg.withEmpty,
        Event.posted (Message.success t.id none)],
       Value.emptyList) := by
    simp only [__proxyPush__, hnew, if_false, Bool.false_eq_true, hpsh]
  refine ⟨h1, h2, ?_, ?_, ?_, ?_⟩
  · rw [h1]
    simp
  · rw [h2]
    simp
  · rw [h1]
    exact h1
  · rw [h2]
    exact h2

/-- Witness for C10: a hint-supplying before-chain yields a `success` reply
for the concrete transform and the log stays empty, so re-proxying the same
transform repeats the full chain. -/
theorem proxy_success_no_local_apply_witness :
    __proxyUpdate__ envHint st0 t1 =
      (st0,
       [Event.fulfilled "beforeUpdate" t1.id,
        Event.settled "proxyUpdate" t1.id
          (SettleArg.withResult (some "cached")),
        Event.posted (Message.success t1.id (some "cached"))],
       Value.payload (some "cached")) ∧
    __proxyUpdate__ envHint (__proxyUpdate__ envHint st0 t1).1 t1 =
      __proxyUpdate__ envHint st0 t1 :=
  ⟨(proxy_success_no_local_apply envHint st0 t1 (some "cached")
      (by decide) rfl rfl).1,
   (proxy_success_no_local_apply envHint st0 t1 (some "cached")
      (by decide) rfl rfl).2.2.2.2.1⟩

end BroadcastChannelSource
